import Mathlib

/-!
Shallow embedding of the WhatsApp gateway service
(`src/whatsapp/whatsapp.service.ts` and the full service variant in the
repository): session status, phone-number normalization, the retry-wrapped
backend client, the outbound send operations, the status-callback fan-out
and the poll-vote reconciliation pipeline, together with theorems settling
the specification's claims about them.
-/

set_option maxRecDepth 4000

/-- Connection status enum (`WhatsAppStatus` in `whatsapp.interface.ts`). -/
inductive WhatsAppStatus
  | DISCONNECTED
  | CONNECTING
  | CONNECTED
  | QR_READY
  | AUTHENTICATED
deriving DecidableEq, Repr

/-- String value of each enum member, as declared in `whatsapp.interface.ts`. -/
def WhatsAppStatus.str : WhatsAppStatus → String
  | .DISCONNECTED => "DISCONNECTED"
  | .CONNECTING => "CONNECTING"
  | .CONNECTED => "CONNECTED"
  | .QR_READY => "QR_READY"
  | .AUTHENTICATED => "AUTHENTICATED"

/-- JavaScript `s.includes(sub)`: substring containment test. -/
def includesStr (s sub : String) : Bool :=
  decide (sub.data <:+: s.data)

/-- JavaScript `s.endsWith(suf)` (used only to state the specification's
suffix claim; the source itself only ever calls `includes`). -/
def endsWithStr (s suf : String) : Bool :=
  decide (suf.data <:+ s.data)

/-- `formatPhoneNumber` from the service: strips every non-digit character
(`phone.replace(/\D/g, '')`); if the original string does not contain the
substring `@c.us` it returns the digit-only form with `@c.us` appended,
otherwise it returns the input unchanged. -/
def formatPhoneNumber (phone : String) : String :=
  let cleaned := String.mk (phone.data.filter Char.isDigit)
  if !(includesStr phone "@c.us") then cleaned ++ "@c.us"
  else phone

/-- `SendOTPDto` from `whatsapp.interface.ts`; `expiryMinutes?: number` is an
optional field, embedded as `Option Nat` (`none` = field absent). -/
structure SendOTPDto where
  «to» : String
  otp : String
  expiryMinutes : Option Nat
deriving DecidableEq, Repr

/-- The effective expiry used by `sendOTP`: the source computes
`dto.expiryMinutes || 5`, and under JavaScript truthiness both an absent
field (`undefined`) and the number `0` are falsy, so both fall back to 5. -/
def otpEffectiveExpiry (expiryMinutes : Option Nat) : Nat :=
  match expiryMinutes with
  | none => 5
  | some n => if n = 0 then 5 else n

/-- The message template composed by `sendOTP` (the template literal in the
service, with the effective expiry interpolated). -/
def otpMessage (dto : SendOTPDto) : String :=
  "🔐 Votre code de vérification est: *" ++ dto.otp ++
    "*\n\nCe code expire dans " ++ toString (otpEffectiveExpiry dto.expiryMinutes) ++
    " minutes.\n\n⚠️ Ne partagez ce code avec personne."

/-- One subscription outcome of the HTTP request observable after the 10s
`timeout` operator: `none` is an error or a timeout, `some r` a response.
`retrySubscribe attempts n i` runs attempt `i` with `n` resubscriptions
remaining, following the rxjs `retry(n)` operator, which resubscribes up to
`n` times after an error. -/
def retrySubscribe {ρ : Type} (attempts : Nat → Option ρ) : Nat → Nat → Option ρ
  | 0, i => attempts i
  | n + 1, i =>
    match attempts i with
    | some r => some r
    | none => retrySubscribe attempts n (i + 1)

/-- `makeHttpCallWithRetry` from the service: pipes the request through
`timeout(10000)`, `retry(retries)` and `catchError(() => of(null))`, so the
call performs the initial attempt plus up to `retries` resubscriptions and on
exhaustion resolves to `null` (`none`) instead of raising. The source gives
`retries` the default value 3; callers here pass it explicitly. -/
def makeHttpCallWithRetry {ρ : Type} (attempts : Nat → Option ρ) (retries : Nat) :
    Option ρ :=
  retrySubscribe attempts retries 0

/-- Error taxonomy of the send facade. In the source these are `Error`
instances whose message strings are reproduced by `sendErrMessage`; each
operation's `catch` block rethrows with an operation-specific prefix such as
`Failed to send message: `. -/
inductive SendErr
  | notReady (status : WhatsAppStatus)
  | validationError (missingIds : List String)
  | fileNotFound (filePath : String)
  | clientError (msg : String)
deriving DecidableEq, Repr

/-- The message string carried by each error, as built in the source. -/
def sendErrMessage : SendErr → String
  | .notReady status => "WhatsApp client not ready. Status: " ++ status.str
  | .validationError ids =>
      "Missing response messages for option IDs: " ++ String.intercalate ", " ids
  | .fileNotFound filePath => "File not found: " ++ filePath
  | .clientError msg => msg

/-- Result of one underlying `client.sendMessage` call. -/
structure ClientMsgResult where
  messageIdSerialized : String
  timestamp : Nat
deriving DecidableEq, Repr

/-- The underlying client's `sendMessage(address, content)` as an oracle:
`Except.error m` models a thrown error with message `m`. -/
def ClientSend : Type := String → String → Except String ClientMsgResult

/-- Outcome of a facade operation: the returned value or thrown error, plus
how many times the underlying client send was invoked. -/
structure OpResult (ρ : Type) where
  result : Except SendErr ρ
  clientSendAttempts : Nat
deriving Repr

structure SendMessageDto where
  «to» : String
  message : String
deriving DecidableEq, Repr

structure MsgResponse where
  success : Bool
  messageId : String
  timestamp : Nat
  «to» : String
deriving DecidableEq, Repr

/-- `sendMessage` from the service: requires `CONNECTED`, formats the number,
delegates to the client and shapes the response. -/
def sendMessage (status : WhatsAppStatus) (client : ClientSend)
    (dto : SendMessageDto) : OpResult MsgResponse :=
  if status ≠ WhatsAppStatus.CONNECTED then
    { result := Except.error (SendErr.notReady status), clientSendAttempts := 0 }
  else
    match client (formatPhoneNumber dto.to) dto.message with
    | Except.ok r =>
        { result := Except.ok
            { success := true, messageId := r.messageIdSerialized,
              timestamp := r.timestamp, «to» := dto.to },
          clientSendAttempts := 1 }
    | Except.error e =>
        { result := Except.error (SendErr.clientError e), clientSendAttempts := 1 }

/-- `sendOTP` from the service: composes the templated message and delegates
to `sendMessage` (which performs the readiness check). -/
def sendOTP (status : WhatsAppStatus) (client : ClientSend)
    (dto : SendOTPDto) : OpResult MsgResponse :=
  sendMessage status client { «to» := dto.to, message := otpMessage dto }

/-- A `MessageMedia` value (mimetype and optional filename). -/
structure MediaFile where
  mimetype : String
  filename : Option String
deriving DecidableEq, Repr

/-- The underlying client's `sendMessage(address, media, { caption })` as an
oracle. -/
def ClientMediaSend : Type := String → MediaFile → String → Except String ClientMsgResult

/-- JavaScript `x || ''` on an optional string: absent is falsy, so it (and
the empty string itself) yields the empty string. -/
def captionOrEmpty (c : Option String) : String :=
  c.getD ""

/-- JavaScript truthiness of an optional string: absent and empty are falsy. -/
def jsTruthyStr : Option String → Bool
  | none => false
  | some s => decide (s ≠ "")

structure SendMediaDto where
  «to» : String
  filePath : String
  caption : Option String
deriving DecidableEq, Repr

structure MediaResponse where
  success : Bool
  messageId : String
  timestamp : Nat
  «to» : String
  mediaType : String
deriving DecidableEq, Repr

/-- `sendMedia` from the service: readiness check, then `fs.existsSync` on
the path, then `MessageMedia.fromFilePath` (oracle `mediaOf`) and the client
send with `caption: dto.caption || ''`. -/
def sendMedia (status : WhatsAppStatus) (client : ClientMediaSend)
    (fsExists : String → Bool) (mediaOf : String → MediaFile)
    (dto : SendMediaDto) : OpResult MediaResponse :=
  if status ≠ WhatsAppStatus.CONNECTED then
    { result := Except.error (SendErr.notReady status), clientSendAttempts := 0 }
  else if !(fsExists dto.filePath) then
    { result := Except.error (SendErr.fileNotFound dto.filePath), clientSendAttempts := 0 }
  else
    let media := mediaOf dto.filePath
    match client (formatPhoneNumber dto.to) media (captionOrEmpty dto.caption) with
    | Except.ok r =>
        { result := Except.ok
            { success := true, messageId := r.messageIdSerialized,
              timestamp := r.timestamp, «to» := dto.to, mediaType := media.mimetype },
          clientSendAttempts := 1 }
    | Except.error e =>
        { result := Except.error (SendErr.clientError e), clientSendAttempts := 1 }

structure SendMediaUrlDto where
  «to» : String
  url : String
  caption : Option String
  filename : Option String
deriving DecidableEq, Repr

structure MediaUrlResponse where
  success : Bool
  messageId : String
  timestamp : Nat
  «to» : String
  mediaType : String
  filename : Option String
deriving DecidableEq, Repr

/-- `sendMediaFromUrl` from the service: readiness check, then
`MessageMedia.fromUrl` (oracle `fetchUrl`, whose failure is a thrown error
wrapped by the catch block); a truthy `dto.filename` overrides the media's
filename; then the client send. The response's `filename` field is
`dto.filename || media.filename`. -/
def sendMediaFromUrl (status : WhatsAppStatus) (client : ClientMediaSend)
    (fetchUrl : String → Except String MediaFile)
    (dto : SendMediaUrlDto) : OpResult MediaUrlResponse :=
  if status ≠ WhatsAppStatus.CONNECTED then
    { result := Except.error (SendErr.notReady status), clientSendAttempts := 0 }
  else
    match fetchUrl dto.url with
    | Except.error e =>
        { result := Except.error (SendErr.clientError e), clientSendAttempts := 0 }
    | Except.ok media0 =>
        let media :=
          if jsTruthyStr dto.filename then { media0 with filename := dto.filename }
          else media0
        match client (formatPhoneNumber dto.to) media (captionOrEmpty dto.caption) with
        | Except.ok r =>
            { result := Except.ok
                { success := true, messageId := r.messageIdSerialized,
                  timestamp := r.timestamp, «to» := dto.to,
                  mediaType := media.mimetype,
                  filename :=
                    if jsTruthyStr dto.filename then dto.filename else media.filename },
              clientSendAttempts := 1 }
        | Except.error e =>
            { result := Except.error (SendErr.clientError e), clientSendAttempts := 1 }

structure SendGroupMessageDto where
  groupId : String
  message : String
deriving DecidableEq, Repr

structure GroupMsgResponse where
  success : Bool
  messageId : String
  timestamp : Nat
  groupId : String
deriving DecidableEq, Repr

/-- `sendGroupMessage` from the service: readiness check, then the group id is
used as-is when it contains `@g.us` and suffixed otherwise, then the client
send. -/
def sendGroupMessage (status : WhatsAppStatus) (client : ClientSend)
    (dto : SendGroupMessageDto) : OpResult GroupMsgResponse :=
  if status ≠ WhatsAppStatus.CONNECTED then
    { result := Except.error (SendErr.notReady status), clientSendAttempts := 0 }
  else
    let groupId :=
      if includesStr dto.groupId "@g.us" then dto.groupId
      else dto.groupId ++ "@g.us"
    match client groupId dto.message with
    | Except.ok r =>
        { result := Except.ok
            { success := true, messageId := r.messageIdSerialized,
              timestamp := r.timestamp, groupId := dto.groupId },
          clientSendAttempts := 1 }
    | Except.error e =>
        { result := Except.error (SendErr.clientError e), clientSendAttempts := 1 }

/-- One poll option (`{ name, localId }`) as in `SendPollDto.pollOptions`. -/
structure PollOption where
  name : String
  localId : Nat
deriving DecidableEq, Repr

/-- `SendPollDto`: `responseMessages` is a JavaScript object keyed by
option-id strings, embedded as an association list whose key list plays the
role of `Object.keys`. -/
structure SendPollDto where
  «to» : String
  pollName : String
  pollOptions : List PollOption
  webhookUrl : String
  responseMessages : List (String × String)
deriving DecidableEq, Repr

/-- `optionIds` in `sendPoll`: `dto.pollOptions.map(opt => opt.localId.toString())`. -/
def pollOptionIds (dto : SendPollDto) : List String :=
  dto.pollOptions.map (fun o => toString o.localId)

/-- `responseMessageIds` in `sendPoll`: `Object.keys(dto.responseMessages)`. -/
def responseMessageIds (dto : SendPollDto) : List String :=
  dto.responseMessages.map Prod.fst

/-- `missingResponses` in `sendPoll`:
`optionIds.filter(id => !responseMessageIds.includes(id))`. -/
def missingResponses (dto : SendPollDto) : List String :=
  (pollOptionIds dto).filter (fun id => !((responseMessageIds dto).contains id))

/-- Body of the backend response to `POST /polls`; the source reads
`pollResponse?.data?.pollId`. -/
structure StorePollBody where
  pollId : Option Nat
deriving DecidableEq, Repr

/-- The underlying client's `sendMessage(address, new Poll(pollName, names))`
as an oracle taking the address, poll name and option names. -/
def ClientPollSend : Type := String → String → List String → Except String ClientMsgResult

structure PollSendResponse where
  success : Bool
  pollId : Option Nat
  messageId : String
  timestamp : Nat
  «to» : String
  pollName : String
  pollOptions : List PollOption
  backendStored : Bool
deriving DecidableEq, Repr

/-- Outcome of `sendPoll`: result, client send attempts and backend
`POST /polls` attempts. -/
structure PollOpResult where
  result : Except SendErr PollSendResponse
  clientSendAttempts : Nat
  backendStoreAttempts : Nat
deriving Repr

/-- `sendPoll` from the service: readiness check; then validation that every
option's `localId` string has an entry in `responseMessages` (throwing with
the missing ids before any send); then the client poll send; then the backend
store via `makeHttpCallWithRetry` whose awaited outcome is the oracle
`storeResp` (`none` = the wrapper resolved to `null`). A failed store is
logged only: the operation still succeeds and reports
`backendStored: !!pollResponse`. -/
def sendPoll (status : WhatsAppStatus) (client : ClientPollSend)
    (storeResp : Option StorePollBody) (dto : SendPollDto) : PollOpResult :=
  if status ≠ WhatsAppStatus.CONNECTED then
    { result := Except.error (SendErr.notReady status),
      clientSendAttempts := 0, backendStoreAttempts := 0 }
  else if !(missingResponses dto).isEmpty then
    { result := Except.error (SendErr.validationError (missingResponses dto)),
      clientSendAttempts := 0, backendStoreAttempts := 0 }
  else
    match client (formatPhoneNumber dto.to) dto.pollName
        (dto.pollOptions.map PollOption.name) with
    | Except.error e =>
        { result := Except.error (SendErr.clientError e),
          clientSendAttempts := 1, backendStoreAttempts := 0 }
    | Except.ok r =>
        { result := Except.ok
            { success := true,
              pollId := storeResp.bind StorePollBody.pollId,
              messageId := r.messageIdSerialized,
              timestamp := r.timestamp,
              «to» := dto.to,
              pollName := dto.pollName,
              pollOptions := dto.pollOptions,
              backendStored := storeResp.isSome },
          clientSendAttempts := 1, backendStoreAttempts := 1 }

/-- One entry of `vote.selectedOptions` (name and localId, per the
whatsapp-web.js documentation; the pipeline reads only `name`). -/
structure VoteSelectedOption where
  name : String
  localId : Nat
deriving DecidableEq, Repr

/-- The inbound `vote_update` payload as consumed by
`handlePollVoteResponse`: `parentMessageId` is
`vote.parentMessage.id._serialized`, and `parentPollOptions` is the untyped
`(vote.parentMessage as any).pollOptions` (absent = `undefined`, replaced by
`[]` via `|| []`). -/
structure PollVoteEvent where
  voter : String
  selectedOptions : List VoteSelectedOption
  parentMessageId : String
  parentPollOptions : Option (List PollOption)
  interractedAtTs : Nat
deriving DecidableEq, Repr

/-- The backend-held poll record, i.e. the fields under
`pollResponse.data.data` read by the pipeline. -/
structure PollData where
  pollName : String
  pollOptions : List PollOption
  webhookUrl : String
  responseMessages : List (String × String)
deriving DecidableEq, Repr

/-- The JSON body of `GET /polls/messageId` (an object, hence truthy in the
`!pollResponse.data` guard); its `data` envelope field may be absent. -/
structure PollFetchBody where
  data : Option PollData
deriving DecidableEq, Repr

/-- Awaited outcomes of the three backend calls the pipeline makes, each
through `makeHttpCallWithRetry` (`none` = the wrapper resolved to `null`).
`checkProcessed` is the resolved optional chain
`alreadyProcessedResponse?.data?.data?.alreadyProcessed` (`none` when the
response or either envelope field is absent). `recordVote` is the outcome of
`POST /polls/votes` (`none` = failed, logged only). -/
structure BackendOracle where
  fetchPoll : Option PollFetchBody
  checkProcessed : Option Bool
  recordVote : Option Unit
deriving DecidableEq, Repr

/-- Observable side effects of one run of the pipeline, in order: the
backend calls issued and the automated-reply send attempted (the reply is
sent with `this.sendMessage`, whose own failure is caught and logged). -/
inductive PipelineEffect
  | fetchPollCall (messageId : String)
  | checkProcessedCall (messageId voter : String)
  | recordVoteCall (messageId voter selectedOption : String) (selectedOptionId : Nat)
  | replyAttempt («to» message : String)
deriving DecidableEq, Repr

/-- `handlePollVoteResponse` from the service, as the ordered list of side
effects it produces. The whole body runs in a `try` whose `catch` only logs,
so a `TypeError` raised mid-pipeline (empty `selectedOptions`, or an absent
`data` envelope when `pollData.responseMessages` is read) truncates the
effect list without propagating an error. -/
def handlePollVoteResponse (b : BackendOracle) (vote : PollVoteEvent) :
    List PipelineEffect :=
  let messageId := vote.parentMessageId
  match b.fetchPoll with
  | none =>
      -- `if (!pollResponse || !pollResponse.data)`: log the raw vote, return
      [PipelineEffect.fetchPollCall messageId]
  | some body =>
      let pollData := body.data
      if (b.checkProcessed.getD false) = true then
        [PipelineEffect.fetchPollCall messageId,
          PipelineEffect.checkProcessedCall messageId vote.voter]
      else
        match vote.selectedOptions with
        | [] =>
            -- `vote.selectedOptions[0]` is `undefined`; reading `.name`
            -- raises, caught by the surrounding try/catch
            [PipelineEffect.fetchPollCall messageId,
              PipelineEffect.checkProcessedCall messageId vote.voter]
        | sel :: _ =>
            let parentOptions := vote.parentPollOptions.getD []
            let matchingOption := parentOptions.find? (fun o => o.name == sel.name)
            -- `matchingOption?.localId || 0` (a matched localId of 0 and no
            -- match both yield 0)
            let selectedOptionId := (matchingOption.map PollOption.localId).getD 0
            let withRecord :=
              [PipelineEffect.fetchPollCall messageId,
                PipelineEffect.checkProcessedCall messageId vote.voter,
                PipelineEffect.recordVoteCall messageId vote.voter sel.name
                  selectedOptionId]
            match pollData with
            | none =>
                -- `pollData.responseMessages` raises on `undefined`, caught
                withRecord
            | some pd =>
                match pd.responseMessages.lookup (toString selectedOptionId) with
                | some msg => withRecord ++ [PipelineEffect.replyAttempt vote.voter msg]
                | none => withRecord

/-- The resolution step as the specification words it: match the vote's
selected option name against the option list of the poll record fetched from
the backend, defaulting to 0 on no match. Stated only to compare with what
the code does. -/
def specSelectedOptionId (pd : PollData) (selName : String) : Nat :=
  (((pd.pollOptions.find? (fun o => o.name == selName)).map PollOption.localId).getD 0)

/-- Session fields relevant to the `disconnected` handler: the status and the
number of reconnection timers armed by `setTimeout(.., 5000)` and not yet
fired. The handler stores no timer handle and clears nothing. -/
structure SessionTimers where
  status : WhatsAppStatus
  pendingReconnects : Nat
deriving DecidableEq, Repr

/-- The `disconnected` event handler: logs the reason, sets the status to
`DISCONNECTED`, notifies (fan-out modeled by `runStatusCallbacks`), and
unconditionally arms one more 5-second reconnection timer. -/
def onDisconnected (s : SessionTimers) (_reason : String) : SessionTimers :=
  { s with status := WhatsAppStatus.DISCONNECTED,
           pendingReconnects := s.pendingReconnects + 1 }

/-- A registered status callback; applying it returns `none` to model a
thrown exception and `some ()` a normal return. -/
def StatusCallback : Type := WhatsAppStatus → Option String → Option Unit

/-- `notifyStatusChange`, i.e.
`this.statusCallbacks.forEach(callback => callback(status, data))`:
`Array.prototype.forEach` does not catch exceptions, so a throwing callback
terminates the iteration and the exception propagates to the notifier.
Returns (number of callbacks invoked, whether an exception escaped); the
list head is the earliest-registered callback (`onStatusChange` pushes). -/
def runStatusCallbacks : List StatusCallback → WhatsAppStatus → Option String →
    Nat × Bool
  | [], _, _ => (0, false)
  | c :: rest, status, data =>
      match c status data with
      | some _ =>
          let r := runStatusCallbacks rest status data
          (r.1 + 1, r.2)
      | none => (1, true)

/-- Attempt sequence that fails twice and succeeds on the third attempt. -/
def attTwoFailures : Nat → Option Nat := fun i => if i = 2 then some 42 else none

/-- Attempt sequence in which every attempt fails or times out. -/
def attAllFailures : Nat → Option Nat := fun _ => none

/-- A client whose send always throws (no send should even be attempted in
the scenarios using it). -/
def clientNever : ClientSend := fun _ _ => Except.error "client unavailable"

def mclientNever : ClientMediaSend := fun _ _ _ => Except.error "client unavailable"

def pclientNever : ClientPollSend := fun _ _ _ => Except.error "client unavailable"

/-- A client poll send that succeeds with a fixed result. -/
def pclientOk : ClientPollSend := fun _ _ _ => Except.ok { messageIdSerialized := "true_22997123456@c.us_AB", timestamp := 1234567890 }

def dtoMsgW : SendMessageDto := { «to» := "22997123456", message := "Bonjour" }

def dtoOtpW : SendOTPDto := { «to» := "22997123456", otp := "123456", expiryMinutes := none }

def dtoMediaW : SendMediaDto := { «to» := "22997123456", filePath := "./uploads/a.png", caption := none }

def dtoUrlW : SendMediaUrlDto := { «to» := "22997123456", url := "https://x.test/a.png", caption := none, filename := none }

def dtoGrpW : SendGroupMessageDto := { groupId := "123456789-987654321", message := "Hello group" }

/-- The specification's poll-creation scenario: options Yes(1)/No(2) with a
reply message configured only for id 1. -/
def dtoPollMissing : SendPollDto :=
  { «to» := "22997123456", pollName := "Sondage",
    pollOptions := [{ name := "Yes", localId := 1 }, { name := "No", localId := 2 }],
    webhookUrl := "https://hook.test", responseMessages := [("1", "Thanks!")] }

/-- A fully configured poll creation request. -/
def dtoPollValid : SendPollDto :=
  { «to» := "22997123456", pollName := "Sondage",
    pollOptions := [{ name := "Yes", localId := 1 }, { name := "No", localId := 2 }],
    webhookUrl := "https://hook.test",
    responseMessages := [("1", "Thanks!"), ("2", "Ok!")] }

/-- Backend poll record whose option list maps the name Yes to localId 7. -/
def pdYes7 : PollData :=
  { pollName := "Sondage", pollOptions := [{ name := "Yes", localId := 7 }],
    webhookUrl := "", responseMessages := [("7", "Merci")] }

/-- Oracle for the resolution scenario: the backend record is available and
the vote is not yet processed. -/
def bResolve : BackendOracle :=
  { fetchPoll := some { data := some pdYes7 }, checkProcessed := some false,
    recordVote := some () }

/-- Vote whose parent message carries an empty `pollOptions` list even though
the backend record maps Yes to 7. -/
def vResolve : PollVoteEvent :=
  { voter := "22997000000@c.us",
    selectedOptions := [{ name := "Yes", localId := 7 }],
    parentMessageId := "M1", parentPollOptions := some [], interractedAtTs := 0 }

/-- Oracle simulating a backend outage on the poll fetch. -/
def bOutage : BackendOracle :=
  { fetchPoll := none, checkProcessed := none, recordVote := none }

/-- Oracle reporting the vote as already processed. -/
def bProcessed : BackendOracle :=
  { fetchPoll := some { data := some pdYes7 }, checkProcessed := some true,
    recordVote := some () }

/-- Vote event for the dedupe / outage scenarios. -/
def vVote : PollVoteEvent :=
  { voter := "22997000001@c.us",
    selectedOptions := [{ name := "Yes", localId := 7 }],
    parentMessageId := "M2", parentPollOptions := some [{ name := "Yes", localId := 7 }],
    interractedAtTs := 5 }

def sConnected : SessionTimers := { status := WhatsAppStatus.CONNECTED, pendingReconnects := 0 }

/-- A status callback that throws. -/
def cbThrow : StatusCallback := fun _ _ => none

/-- A status callback that returns normally. -/
def cbOk : StatusCallback := fun _ _ => some ()

theorem data_of_append (a b : String) : (a ++ b).data = a.data ++ b.data := rfl

theorem strAppend_assoc (a b c : String) : a ++ b ++ c = a ++ (b ++ c) := by
  cases a with
  | mk la =>
    cases b with
    | mk lb =>
      cases c with
      | mk lc =>
        show String.mk (la ++ lb ++ lc) = String.mk (la ++ (lb ++ lc))
        rw [List.append_assoc]

theorem includesStr_append_middle (a b c : String) :
    includesStr (a ++ b ++ c) b = true := by
  have h : b.data <:+: (a ++ b ++ c).data :=
    ⟨a.data, c.data, by simp [data_of_append]⟩
  simp [includesStr, h]

theorem includesStr_append_right (a b : String) :
    includesStr (a ++ b) b = true := by
  have h : b.data <:+: (a ++ b).data :=
    ⟨a.data, [], by simp [data_of_append]⟩
  simpa [includesStr] using h

theorem formatPhoneNumber_of_includes (p : String)
    (h : includesStr p "@c.us" = true) : formatPhoneNumber p = p := by
  simp [formatPhoneNumber, h]

theorem formatPhoneNumber_contains_suffix (p : String) :
    includesStr (formatPhoneNumber p) "@c.us" = true := by
  by_cases h : includesStr p "@c.us" = true
  · simp [formatPhoneNumber, h]
  · simp only [formatPhoneNumber, Bool.not_eq_true] at *
    simp [h, includesStr_append_right]

theorem formatPhoneNumber_idem (p : String) :
    formatPhoneNumber (formatPhoneNumber p) = formatPhoneNumber p :=
  formatPhoneNumber_of_includes _ (formatPhoneNumber_contains_suffix p)

theorem otpMessage_decompose (dto : SendOTPDto) :
    otpMessage dto =
      ("🔐 Votre code de vérification est: *" ++ dto.otp ++ "*\n\n") ++
        ("Ce code expire dans " ++ toString (otpEffectiveExpiry dto.expiryMinutes) ++
          " minutes") ++
        (".\n\n⚠️ Ne partagez ce code avec personne.") := by
  have h1 : ("*\n\nCe code expire dans " : String) = "*\n\n" ++ "Ce code expire dans " := rfl
  have h2 : (" minutes.\n\n⚠️ Ne partagez ce code avec personne." : String) =
      " minutes" ++ ".\n\n⚠️ Ne partagez ce code avec personne." := rfl
  simp only [otpMessage, h1, h2, strAppend_assoc]

theorem otpMessage_announces_effective_expiry (dto : SendOTPDto) :
    includesStr (otpMessage dto)
      ("Ce code expire dans " ++ toString (otpEffectiveExpiry dto.expiryMinutes) ++
        " minutes") = true := by
  rw [otpMessage_decompose]
  exact includesStr_append_middle _ _ _

theorem retrySubscribe_all_none {ρ : Type} (attempts : Nat → Option ρ)
    (h : ∀ i, attempts i = none) : ∀ n i, retrySubscribe attempts n i = none := by
  intro n
  induction n with
  | zero => intro i; simp [retrySubscribe, h]
  | succ n ih => intro i; simp [retrySubscribe, h, ih]

/-- C1: through the retry-wrapped backend client with the default bound of 3
retries, a request that fails twice and succeeds on the third attempt returns
the successful response, and a request whose every attempt fails or times out
returns the explicit no-response sentinel (null, `none`) — the wrapper is a
total function into `Option`, so exhaustion never raises. -/
theorem retryWrapper_contract {ρ : Type} (attempts attBad : Nat → Option ρ) (r : ρ)
    (h0 : attempts 0 = none) (h1 : attempts 1 = none) (h2 : attempts 2 = some r)
    (hfail : ∀ i, attBad i = none) :
    makeHttpCallWithRetry attempts 3 = some r ∧
      makeHttpCallWithRetry attBad 3 = none := by
  constructor
  · simp [makeHttpCallWithRetry, retrySubscribe, h0, h1, h2]
  · exact retrySubscribe_all_none attBad hfail 3 0

theorem retryWrapper_contract_witness :
    makeHttpCallWithRetry attTwoFailures 3 = some 42 ∧
      makeHttpCallWithRetry attAllFailures 3 = none :=
  retryWrapper_contract attTwoFailures attAllFailures 42 rfl rfl rfl (fun _ => rfl)

/-- C10: `sendOTP` composes its message from `dto.expiryMinutes || 5`, so a
falsy `expiryMinutes` (0 as well as absent) announces an expiry of 5 minutes,
and a truthy value `n` is announced verbatim. -/
theorem sendOTP_expiry_default (dto : SendOTPDto) :
    ((dto.expiryMinutes = some 0 ∨ dto.expiryMinutes = none) →
      otpEffectiveExpiry dto.expiryMinutes = 5 ∧
        includesStr (otpMessage dto) "Ce code expire dans 5 minutes" = true) ∧
    (∀ n, dto.expiryMinutes = some n → n ≠ 0 →
      otpEffectiveExpiry dto.expiryMinutes = n ∧
        includesStr (otpMessage dto)
          ("Ce code expire dans " ++ toString n ++ " minutes") = true) := by
  constructor
  · intro hz
    have he : otpEffectiveExpiry dto.expiryMinutes = 5 := by
      rcases hz with h | h <;> simp [otpEffectiveExpiry, h]
    refine ⟨he, ?_⟩
    have hmsg := otpMessage_announces_effective_expiry dto
    rw [he] at hmsg
    exact hmsg
  · intro n hn hne
    have he : otpEffectiveExpiry dto.expiryMinutes = n := by
      simp [otpEffectiveExpiry, hn, hne]
    refine ⟨he, ?_⟩
    have hmsg := otpMessage_announces_effective_expiry dto
    rw [he] at hmsg
    exact hmsg

theorem sendOTP_expiry_default_witness :
    (otpEffectiveExpiry (SendOTPDto.mk "22997123456" "123456" (some 0)).expiryMinutes = 5 ∧
      includesStr (otpMessage (SendOTPDto.mk "22997123456" "123456" (some 0)))
        "Ce code expire dans 5 minutes" = true) ∧
    (otpEffectiveExpiry (SendOTPDto.mk "22997123456" "123456" (some 7)).expiryMinutes = 7 ∧
      includesStr (otpMessage (SendOTPDto.mk "22997123456" "123456" (some 7)))
        ("Ce code expire dans " ++ toString 7 ++ " minutes") = true) :=
  ⟨(sendOTP_expiry_default (SendOTPDto.mk "22997123456" "123456" (some 0))).1 (Or.inl rfl),
    (sendOTP_expiry_default (SendOTPDto.mk "22997123456" "123456" (some 7))).2 7 rfl
      (by decide)⟩

/-- C8 counterexample: the claim that the normalizer's output always ends in
the canonical suffix fails at the input 1@c.us2, which contains the suffix
substring mid-string and is therefore returned unchanged, ending in 2. -/
theorem formatPhoneNumber_suffix_counterexample :
    formatPhoneNumber "1@c.us2" = "1@c.us2" ∧
      endsWithStr (formatPhoneNumber "1@c.us2") "@c.us" = false := by
  constructor
  · rfl
  · rfl

/-- C8 amended: the phone number normalizer is idempotent, and its output
always contains the canonical suffix @c.us (it ends in the suffix whenever
the input does not already contain the substring elsewhere). -/
theorem formatPhoneNumber_idem_and_contains (p : String) :
    formatPhoneNumber (formatPhoneNumber p) = formatPhoneNumber p ∧
      includesStr (formatPhoneNumber p) "@c.us" = true :=
  ⟨formatPhoneNumber_idem p, formatPhoneNumber_contains_suffix p⟩

/-- C2: in every status other than CONNECTED, each of the six send
operations fails with the not-ready error carrying the current status and
performs zero underlying client send attempts (for `sendPoll` also zero
backend calls). -/
theorem sendOps_require_connected (status : WhatsAppStatus)
    (h : status ≠ WhatsAppStatus.CONNECTED)
    (client : ClientSend) (mclient : ClientMediaSend) (pclient : ClientPollSend)
    (fsExists : String → Bool) (mediaOf : String → MediaFile)
    (fetchUrl : String → Except String MediaFile) (storeResp : Option StorePollBody)
    (dtoMsg : SendMessageDto) (dtoOtp : SendOTPDto) (dtoMedia : SendMediaDto)
    (dtoUrl : SendMediaUrlDto) (dtoPoll : SendPollDto)
    (dtoGrp : SendGroupMessageDto) :
    sendMessage status client dtoMsg =
      { result := Except.error (SendErr.notReady status), clientSendAttempts := 0 } ∧
    sendOTP status client dtoOtp =
      { result := Except.error (SendErr.notReady status), clientSendAttempts := 0 } ∧
    sendMedia status mclient fsExists mediaOf dtoMedia =
      { result := Except.error (SendErr.notReady status), clientSendAttempts := 0 } ∧
    sendMediaFromUrl status mclient fetchUrl dtoUrl =
      { result := Except.error (SendErr.notReady status), clientSendAttempts := 0 } ∧
    sendPoll status pclient storeResp dtoPoll =
      { result := Except.error (SendErr.notReady status),
        clientSendAttempts := 0, backendStoreAttempts := 0 } ∧
    sendGroupMessage status client dtoGrp =
      { result := Except.error (SendErr.notReady status), clientSendAttempts := 0 } := by
  refine ⟨?_, ?_, ?_, ?_, ?_, ?_⟩ <;>
    simp [sendMessage, sendOTP, sendMedia, sendMediaFromUrl, sendPoll,
      sendGroupMessage, h]

theorem sendOps_require_connected_witness :
    sendMessage WhatsAppStatus.QR_READY clientNever dtoMsgW =
      { result := Except.error (SendErr.notReady WhatsAppStatus.QR_READY),
        clientSendAttempts := 0 } ∧
    sendOTP WhatsAppStatus.QR_READY clientNever dtoOtpW =
      { result := Except.error (SendErr.notReady WhatsAppStatus.QR_READY),
        clientSendAttempts := 0 } ∧
    sendMedia WhatsAppStatus.QR_READY mclientNever (fun _ => true)
        (fun _ => { mimetype := "image/png", filename := none }) dtoMediaW =
      { result := Except.error (SendErr.notReady WhatsAppStatus.QR_READY),
        clientSendAttempts := 0 } ∧
    sendMediaFromUrl WhatsAppStatus.QR_READY mclientNever
        (fun _ => Except.ok { mimetype := "image/png", filename := none }) dtoUrlW =
      { result := Except.error (SendErr.notReady WhatsAppStatus.QR_READY),
        clientSendAttempts := 0 } ∧
    sendPoll WhatsAppStatus.QR_READY pclientNever none dtoPollValid =
      { result := Except.error (SendErr.notReady WhatsAppStatus.QR_READY),
        clientSendAttempts := 0, backendStoreAttempts := 0 } ∧
    sendGroupMessage WhatsAppStatus.QR_READY clientNever dtoGrpW =
      { result := Except.error (SendErr.notReady WhatsAppStatus.QR_READY),
        clientSendAttempts := 0 } :=
  sendOps_require_connected WhatsAppStatus.QR_READY (by decide) clientNever
    mclientNever pclientNever (fun _ => true)
    (fun _ => { mimetype := "image/png", filename := none })
    (fun _ => Except.ok { mimetype := "image/png", filename := none }) none
    dtoMsgW dtoOtpW dtoMediaW dtoUrlW dtoPollValid dtoGrpW

/-- C5: when the underlying poll send succeeds but the backend store resolves
to null, `sendPoll` neither rolls back nor fails: it returns success = true
and reports backendStored = false. -/
theorem sendPoll_backend_failure_degraded (client : ClientPollSend)
    (dto : SendPollDto) (r : ClientMsgResult)
    (hvalid : missingResponses dto = [])
    (hclient : client (formatPhoneNumber dto.to) dto.pollName
        (dto.pollOptions.map PollOption.name) = Except.ok r) :
    sendPoll WhatsAppStatus.CONNECTED client none dto =
      { result := Except.ok
          { success := true, pollId := none, messageId := r.messageIdSerialized,
            timestamp := r.timestamp, «to» := dto.to, pollName := dto.pollName,
            pollOptions := dto.pollOptions, backendStored := false },
        clientSendAttempts := 1, backendStoreAttempts := 1 } := by
  simp [sendPoll, hvalid, hclient]

theorem sendPoll_backend_failure_degraded_witness :
    sendPoll WhatsAppStatus.CONNECTED pclientOk none dtoPollValid =
      { result := Except.ok
          { success := true, pollId := none,
            messageId := "true_22997123456@c.us_AB", timestamp := 1234567890,
            «to» := dtoPollValid.to, pollName := dtoPollValid.pollName,
            pollOptions := dtoPollValid.pollOptions, backendStored := false },
        clientSendAttempts := 1, backendStoreAttempts := 1 } :=
  sendPoll_backend_failure_degraded pclientOk dtoPollValid
    { messageIdSerialized := "true_22997123456@c.us_AB", timestamp := 1234567890 }
    rfl rfl

/-- C6: when some option's localId has no entry in responseMessages, a
connected-session `sendPoll` fails with the validation error listing exactly
the missing localId strings, before any client send and before any backend
call (both attempt counts are 0). -/
theorem sendPoll_missing_response_validation (client : ClientPollSend)
    (storeResp : Option StorePollBody) (dto : SendPollDto)
    (h : ∃ o, o ∈ dto.pollOptions ∧
      (responseMessageIds dto).contains (toString o.localId) = false) :
    sendPoll WhatsAppStatus.CONNECTED client storeResp dto =
      { result := Except.error (SendErr.validationError (missingResponses dto)),
        clientSendAttempts := 0, backendStoreAttempts := 0 } ∧
    (∀ id, id ∈ missingResponses dto ↔
      (id ∈ pollOptionIds dto ∧ (responseMessageIds dto).contains id = false)) := by
  have hmem : ∃ x, x ∈ missingResponses dto := by
    obtain ⟨o, ho, hc⟩ := h
    refine ⟨toString o.localId, ?_⟩
    refine List.mem_filter.mpr ⟨?_, by simpa using hc⟩
    exact List.mem_map.mpr ⟨o, ho, rfl⟩
  constructor
  · obtain ⟨x, hx⟩ := hmem
    cases hm : missingResponses dto with
    | nil => rw [hm] at hx; exact absurd hx (List.not_mem_nil x)
    | cons a l => simp [sendPoll, hm]
  · intro id
    unfold missingResponses
    constructor
    · intro hmem'
      refine ⟨List.mem_of_mem_filter hmem', ?_⟩
      have h2 := List.of_mem_filter hmem'
      simpa using h2
    · rintro ⟨h1, h2⟩
      exact List.mem_filter.mpr ⟨h1, by simpa using h2⟩

theorem sendPoll_missing_response_validation_witness :
    sendPoll WhatsAppStatus.CONNECTED pclientOk none dtoPollMissing =
      { result := Except.error (SendErr.validationError ["2"]),
        clientSendAttempts := 0, backendStoreAttempts := 0 } ∧
    ("2" ∈ missingResponses dtoPollMissing ∧ "1" ∉ missingResponses dtoPollMissing) := by
  have h := sendPoll_missing_response_validation pclientOk none dtoPollMissing
    ⟨{ name := "No", localId := 2 }, by decide, by decide⟩
  refine ⟨?_, ?_, ?_⟩
  · have hm : missingResponses dtoPollMissing = ["2"] := by decide
    rw [h.1, hm]
  · exact (h.2 "2").mpr (by decide)
  · intro hmem
    have := (h.2 "1").mp hmem
    revert this
    decide

/-- C3: (a) when the backend poll fetch resolves to null, the pipeline stops
after the fetch call — no check-processed call, no record-vote call, no reply
attempt — and, being a total function into an effect list, raises nothing;
(b) when the fetch succeeds and the check-processed call reports
alreadyProcessed = true, the pipeline stops after those two calls with no
record-vote call and no reply attempt. -/
theorem votePipeline_outage_and_dedup (b bOut : BackendOracle)
    (v vOut : PollVoteEvent) (body : PollFetchBody)
    (hOut : bOut.fetchPoll = none)
    (hFetch : b.fetchPoll = some body) (hProc : b.checkProcessed = some true) :
    handlePollVoteResponse bOut vOut =
      [PipelineEffect.fetchPollCall vOut.parentMessageId] ∧
    handlePollVoteResponse b v =
      [PipelineEffect.fetchPollCall v.parentMessageId,
        PipelineEffect.checkProcessedCall v.parentMessageId v.voter] := by
  constructor
  · simp [handlePollVoteResponse, hOut]
  · simp [handlePollVoteResponse, hFetch, hProc]

theorem votePipeline_outage_and_dedup_witness :
    handlePollVoteResponse bOutage vVote =
      [PipelineEffect.fetchPollCall "M2"] ∧
    handlePollVoteResponse bProcessed vVote =
      [PipelineEffect.fetchPollCall "M2",
        PipelineEffect.checkProcessedCall "M2" "22997000001@c.us"] :=
  votePipeline_outage_and_dedup bProcessed bOutage vVote vVote
    { data := some pdYes7 } rfl rfl rfl

/-- C4 counterexample: the pipeline does not resolve the selected option id
against the backend-fetched poll record. At this input the backend record
maps the voted name Yes to localId 7, but the parent message carries an empty
pollOptions list, so the pipeline records selectedOptionId 0 (and, looking up
the reply under key 0, sends none) — matching against the backend record as
the claim states would give 7. -/
theorem votePipeline_resolve_counterexample :
    handlePollVoteResponse bResolve vResolve =
      [PipelineEffect.fetchPollCall "M1",
        PipelineEffect.checkProcessedCall "M1" "22997000000@c.us",
        PipelineEffect.recordVoteCall "M1" "22997000000@c.us" "Yes" 0] ∧
    specSelectedOptionId pdYes7 "Yes" = 7 ∧ (0 : Nat) ≠ 7 := by
  refine ⟨rfl, rfl, by decide⟩

/-- C4 amended: for every vote event that passes the fetch and dedupe steps
and carries at least one selected option, the pipeline resolves
selectedOptionId by matching the selected option's name against the parent
message's pollOptions list carried on the vote event (taken as empty when
absent) — not against the backend record — defaulting to 0 when no name
matches, and it continues: the record-vote call with exactly that id is among
the pipeline's effects. -/
theorem votePipeline_resolve_parent_options (b : BackendOracle)
    (v : PollVoteEvent) (body : PollFetchBody) (sel : VoteSelectedOption)
    (rest : List VoteSelectedOption)
    (hFetch : b.fetchPoll = some body)
    (hProc : b.checkProcessed.getD false = false)
    (hSel : v.selectedOptions = sel :: rest) :
    PipelineEffect.recordVoteCall v.parentMessageId v.voter sel.name
        ((((v.parentPollOptions.getD []).find?
          (fun o => o.name == sel.name)).map PollOption.localId).getD 0)
      ∈ handlePollVoteResponse b v := by
  unfold handlePollVoteResponse
  rw [hFetch]
  simp only [hProc, hSel, Bool.false_eq_true, if_false]
  cases hd : body.data with
  | none => simp
  | some pd =>
      cases hl : pd.responseMessages.lookup
          (toString ((((v.parentPollOptions.getD []).find?
            (fun o => o.name == sel.name)).map PollOption.localId).getD 0)) with
      | none => simp [hl]
      | some msg => simp [hl]

theorem votePipeline_resolve_parent_options_witness :
    PipelineEffect.recordVoteCall "M1" "22997000000@c.us" "Yes" 0
      ∈ handlePollVoteResponse bResolve vResolve := by
  have h := votePipeline_resolve_parent_options bResolve vResolve
    { data := some pdYes7 } { name := "Yes", localId := 7 } [] rfl rfl rfl
  simpa using h

/-- C7 counterexample: the disconnected handler arms its 5-second
reconnection timer unconditionally, stores no handle and clears nothing, so
two consecutive disconnected events before the delay elapses leave two
pending reconnection timers — the claim that this can never happen is false. -/
theorem disconnected_duplicate_timers_counterexample :
    (onDisconnected (onDisconnected sConnected "NAVIGATION") "NAVIGATION").status =
      WhatsAppStatus.DISCONNECTED ∧
    (onDisconnected (onDisconnected sConnected "NAVIGATION") "NAVIGATION").pendingReconnects = 2 ∧
    (2 : Nat) ≠ 1 := by
  refine ⟨rfl, rfl, by decide⟩

/-- C7 amended: from every state a disconnected event sets the status to
DISCONNECTED and schedules one additional reconnection attempt after the
fixed 5-second delay; timers accumulate, so consecutive disconnected events
before the delay elapses each leave one more pending timer. -/
theorem disconnected_arms_one_more_timer (s : SessionTimers) (reason : String) :
    (onDisconnected s reason).status = WhatsAppStatus.DISCONNECTED ∧
    (onDisconnected s reason).pendingReconnects = s.pendingReconnects + 1 :=
  ⟨rfl, rfl⟩

theorem runStatusCallbacks_all_ok (status : WhatsAppStatus) (data : Option String) :
    ∀ cbs : List StatusCallback, (∀ c ∈ cbs, c status data ≠ none) →
      runStatusCallbacks cbs status data = (cbs.length, false) := by
  intro cbs
  induction cbs with
  | nil => intro _; rfl
  | cons c rest ih =>
      intro h
      have hc : c status data ≠ none := h c (List.mem_cons_self c rest)
      cases hcv : c status data with
      | none => exact absurd hcv hc
      | some u =>
          have hr := ih (fun c' hc' => h c' (List.mem_cons_of_mem _ hc'))
          simp [runStatusCallbacks, hcv, hr]

theorem runStatusCallbacks_abort (status : WhatsAppStatus) (data : Option String) :
    ∀ pre : List StatusCallback, ∀ (c : StatusCallback) (post : List StatusCallback),
      (∀ c' ∈ pre, c' status data ≠ none) → c status data = none →
      runStatusCallbacks (pre ++ c :: post) status data = (pre.length + 1, true) := by
  intro pre
  induction pre with
  | nil => intro c post _ hc; simp [runStatusCallbacks, hc]
  | cons p pre' ih =>
      intro c post hpre hc
      have hp : p status data ≠ none := hpre p (List.mem_cons_self p pre')
      cases hpv : p status data with
      | none => exact absurd hpv hp
      | some u =>
          have hr := ih c post (fun c' h' => hpre c' (List.mem_cons_of_mem _ h')) hc
          simp [runStatusCallbacks, hpv, hr]

/-- C9 counterexample: with two registered observers of which the first
throws, the fan-out invokes only one observer — the subsequently registered
observer is skipped and the exception escapes — so the claim that a throwing
observer does not block or skip later observers is false. -/
theorem notify_throw_counterexample :
    runStatusCallbacks [cbThrow, cbOk] WhatsAppStatus.CONNECTED none = (1, true) ∧
    (1 : Nat) ≠ ([cbThrow, cbOk] : List StatusCallback).length := by
  refine ⟨rfl, ?_⟩
  intro h
  simp at h

/-- C9 amended: on every notification the fan-out invokes the registered
observers synchronously in registration order, but without isolation: if
every observer returns, all of them are invoked and no exception escapes;
if all observers before some observer return and that observer throws,
exactly those observers plus the throwing one are invoked (later ones are
skipped) and the exception propagates. -/
theorem notify_fanout_order_and_abort (cbs : List StatusCallback)
    (status : WhatsAppStatus) (data : Option String) :
    ((∀ c ∈ cbs, c status data ≠ none) →
      runStatusCallbacks cbs status data = (cbs.length, false)) ∧
    (∀ (pre : List StatusCallback) (c : StatusCallback) (post : List StatusCallback),
      cbs = pre ++ c :: post → (∀ c' ∈ pre, c' status data ≠ none) →
      c status data = none →
      runStatusCallbacks cbs status data = (pre.length + 1, true)) := by
  constructor
  · exact runStatusCallbacks_all_ok status data cbs
  · intro pre c post hcbs hpre hc
    rw [hcbs]
    exact runStatusCallbacks_abort status data pre c post hpre hc

theorem notify_fanout_order_and_abort_witness :
    runStatusCallbacks [cbOk, cbOk] WhatsAppStatus.CONNECTED none = (2, false) ∧
    runStatusCallbacks [cbOk, cbThrow, cbOk] WhatsAppStatus.QR_READY (some "qr") =
      (2, true) := by
  constructor
  · have h := (notify_fanout_order_and_abort [cbOk, cbOk]
      WhatsAppStatus.CONNECTED none).1 ?_
    · simpa using h
    · intro c hcm
      rcases List.mem_cons.mp hcm with rfl | hcm'
      · simp [cbOk]
      · rcases List.mem_cons.mp hcm' with rfl | hcm''
        · simp [cbOk]
        · exact absurd hcm'' (List.not_mem_nil c)
  · have h := (notify_fanout_order_and_abort [cbOk, cbThrow, cbOk]
      WhatsAppStatus.QR_READY (some "qr")).2 [cbOk] cbThrow [cbOk] rfl ?_ rfl
    · simpa using h
    · intro c hcm
      rcases List.mem_cons.mp hcm with rfl | hcm'
      · simp [cbOk]
      · exact absurd hcm' (List.not_mem_nil c)
